import Mathlib

/-!
A verification development for the multivariate data-reconstruction drift
detector of the `nannyml` repository
(`nannyml/drift/model_inputs/multivariate/data_reconstruction/calculator.py`
and `.../results.py`).

Conventions of the shallow embedding:
* machine floats become rationals (`ℚ`); the square root used by the
  Euclidean norm (`np.linalg.norm`) and by the sample standard deviation
  (`pandas.Series.std`) is an explicit function parameter of the
  environment, so every definition stays executable;
* a pandas `DataFrame` becomes a list of rows over named columns, a cell
  being `Option ℚ` (`none` models `NaN`);
* fallible code returns values paired with `Except`, the first component
  being the (possibly mutated) calculator state;
* external collaborators (the chunker, the sklearn `PCA` fit, the fitting
  of imputers/encoder/scaler) are fields of an `Env` record: the calculator
  only ever observes them as deterministic functions, matching the fixed
  random seed of the source (`PCA(..., random_state=16)`).
-/

set_option linter.unusedVariables false

namespace NannyML

/-- A cell of a tabular dataset: a value encoded as a rational, or missing
(`none`, modelling `NaN`). -/
abbrev Cell := Option ℚ

/-- A tabular dataset: named columns, per-column inferred dtype
(`continuousDtype c = true` when column `c` has a continuous dtype), and a
list of rows, each row aligned with `columns`. -/
structure DataFrame where
  columns : List String
  continuousDtype : String → Bool
  rows : List (List Cell)

/-- The fitted preprocessing and reduction artifacts owned by the
calculator after `fit`: per-column imputer fill values (most-frequent for
categorical, mean for continuous, as fitted on reference data), the
reference-frequency encoder (`CountEncoder(normalize=True)`, which also
maps a missing value to a frequency), the standard scaler's per-column
mean and scale, and the PCA projection/reconstruction maps
(`pca.transform` / `pca.inverse_transform`). -/
structure FittedArtifacts where
  imputerCatFill : String → ℚ
  imputerContFill : String → ℚ
  encode : String → Cell → ℚ
  scalerMean : String → ℚ
  scalerScale : String → ℚ
  project : List ℚ → List ℚ
  reconstruct : List ℚ → List ℚ

/-- A chunk as produced by the external chunker (`nannyml.chunk.Chunk`):
key, index range, date range, period tag, transition flag and the chunk's
rows. -/
structure Chunk where
  key : String
  startIndex : Nat
  endIndex : Nat
  startDate : Int
  endDate : Int
  period : String
  isTransition : Bool
  data : DataFrame

/-- The `columns` argument of `Chunker.split`: Python is dynamically typed,
and the source passes a list of column names at one call site and a single
string at another. -/
inductive ColumnsArg where
  | ofString (s : String)
  | ofList (l : List String)

/-- The argument record of a `Chunker.split(data, columns,
minimum_chunk_size, timestamp_column_name)` call; an `Option` field is
`none` when the source does not pass that keyword. -/
structure SplitArgs where
  data : DataFrame
  columns : ColumnsArg
  minimumChunkSize : Option Nat
  timestampColumnName : Option String

/-- The external world the calculator runs in: the square root (floats are
embedded as rationals, so the irrational square root is a parameter), the
float power `n ** (5/6)` used by `_minimum_chunk_size`, the external
chunker, and the fitting of the sklearn/category_encoders artifacts on
reference data (a pure function: the source fixes every random seed).
`fitArtifacts` receives the reference data, the feature columns and the
continuous/categorical split. -/
structure Env where
  sqrt : ℚ → ℚ
  pow56 : Nat → ℚ
  chunkerSplit : SplitArgs → List Chunk
  fitArtifacts : DataFrame → List String → List String → List String → FittedArtifacts

/-- The error taxonomy relevant to this component:
`invalidArguments` models `nannyml.exceptions.InvalidArgumentsException`
(data-validation and unsupported-plot-kind errors), `notFitted` models the
not-fitted state error. -/
inductive CalcError where
  | invalidArguments (msg : String)
  | notFitted (msg : String)
deriving DecidableEq

/-- One row of the result table assembled by `_calculate`
(lines 224-252 of calculator.py). -/
structure ResultRow where
  key : String
  startIndex : Nat
  endIndex : Nat
  startDate : Int
  endDate : Int
  period : String
  reconstructionError : ℚ
  lowerThreshold : ℚ
  upperThreshold : ℚ
  alert : Bool
deriving DecidableEq

/-- The mutable state of a `DataReconstructionDriftCalculator` instance.
The fitted artifacts (`_encoder`, `_scaler`, `_pca` and the fitted imputer
statistics, all `None` before `fit`) are collected in one
`Option FittedArtifacts`, populated together during `fit` exactly as in
the source. -/
structure Calculator where
  featureColumnNames : List String
  timestampColumnName : String
  continuousFeatureColumnNames : List String
  categoricalFeatureColumnNames : List String
  artifacts : Option FittedArtifacts
  upperAlertThreshold : Option ℚ
  lowerAlertThreshold : Option ℚ
  previousReferenceResults : Option (List ResultRow)

/-- Models `DataReconstructionDriftCalculator.__init__`: the unfitted state. -/
def mkCalculator (featureColumnNames : List String) (timestampColumnName : String) : Calculator :=
  { featureColumnNames := featureColumnNames
    timestampColumnName := timestampColumnName
    continuousFeatureColumnNames := []
    categoricalFeatureColumnNames := []
    artifacts := none
    upperAlertThreshold := none
    lowerAlertThreshold := none
    previousReferenceResults := none }

/-- Mean of a list of rationals (`pandas.Series.mean`; on an empty list the
`0/0 = 0` convention of `ℚ` stands in for pandas' `NaN`). -/
def listMean (l : List ℚ) : ℚ := l.sum / (l.length : ℚ)

/-- Sample variance with one delta degree of freedom, as used by
`pandas.Series.std` (`ddof=1`). -/
def sampleVariance (l : List ℚ) : ℚ :=
  ((l.map fun x => (x - listMean l) * (x - listMean l)).sum) / ((l.length : ℚ) - 1)

/-- Models `pandas.Series.std`: square root of the `ddof=1` sample variance. -/
def sampleStd (env : Env) (l : List ℚ) : ℚ := env.sqrt (sampleVariance l)

/-- Models `_minimum_chunk_size`: `int(20 * np.power(len(features), 5 / 6))`.
The float power is the environment's `pow56`; `int` truncation of the
nonnegative product is modelled by the rational floor. -/
def minimumChunkSize (env : Env) (features : List String) : Nat :=
  (Rat.floor (20 * env.pow56 features.length)).toNat

/-- The declared feature columns absent from the data, in declaration
order: the boolean-mask selection
`feature_column_names[~np.isin(feature_column_names, data.columns)]`. -/
def missingColumns (featureColumnNames : List String) (data : DataFrame) : List String :=
  featureColumnNames.filter fun c => !(data.columns.contains c)

/-- Modelled from the spec: `_split_features_by_type` lives in
`nannyml.base`, which is not part of the sources; per the spec the feature
set "is split into `continuous` vs `categorical` by inferred dtype" of the
current dataset. Returns `(continuous, categorical)`. -/
def splitFeaturesByType (data : DataFrame) (featureColumnNames : List String) :
    List String × List String :=
  (featureColumnNames.filter fun c => data.continuousDtype c,
   featureColumnNames.filter fun c => !(data.continuousDtype c))

/-- The message of the empty-data validation error (identical in `_fit`
and `_calculate`). -/
def emptyDataMsg : String := "data contains no rows. Please provide a valid data set."

/-- Join a list of strings with a separator (the rendering of the missing
column list inside the error message). -/
def joinSep (sep : String) : List String → String
  | [] => ""
  | [c] => c
  | c :: c' :: cs => c ++ sep ++ joinSep sep (c' :: cs)

/-- The message of the missing-columns validation error:
`f"data does not contain columns X"` with `X` the quoted missing-column
list, the rendering of the list being modelled by a bracketed separator
join. -/
def missingColumnsMsg (cols : List String) : String :=
  "data does not contain columns \x27[" ++ joinSep ", " cols ++ "]\x27."

/-- The message of the not-fitted state error. -/
def notFittedMsg : String := "calculator has not been fitted yet. Please fit the calculator first."

/-- The cell of a row at a named column (`chunk.data[col]` for one row):
`none` both for a missing column and for a stored `NaN`. -/
def featureCell (data : DataFrame) (row : List Cell) (col : String) : Cell :=
  match data.columns.indexOf? col with
  | some i => row.getD i none
  | none => none

/-- Imputation of one cell (lines 325-328 of calculator.py): the
categorical imputer fills cells of the categorical feature columns, the
continuous imputer those of the continuous ones; a column in neither
subset is left untouched. -/
def imputeCell (a : FittedArtifacts) (catCols contCols : List String) (col : String)
    (cell : Cell) : Cell :=
  if catCols.contains col then some (cell.getD (a.imputerCatFill col))
  else if contCols.contains col then some (cell.getD (a.imputerContFill col))
  else cell

/-- The per-cell preprocessing of `_calculate_reconstruction_error_for_data`
(lines 324-333): impute, frequency-encode (`encoder.transform`), then
standardize (`scaler.transform`, i.e. subtract the fitted mean and divide
by the fitted scale). -/
def preprocessCell (a : FittedArtifacts) (catCols contCols : List String) (col : String)
    (cell : Cell) : ℚ :=
  (a.encode col (imputeCell a catCols contCols col cell) - a.scalerMean col) / a.scalerScale col

/-- One row of `data[feature_column_names]` after imputation, encoding and
scaling: the standardized feature vector, in feature-column order. -/
def preprocessRow (a : FittedArtifacts) (featureCols catCols contCols : List String)
    (data : DataFrame) (row : List Cell) : List ℚ :=
  featureCols.map fun col => preprocessCell a catCols contCols col (featureCell data row col)

/-- Component-wise difference `x1.subtract(x2)` of two feature vectors. -/
def rowSub (u v : List ℚ) : List ℚ := (u.zip v).map fun q => q.1 - q.2

/-- Models `np.linalg.norm` of a vector: square root of the sum of squares. -/
def euclideanNorm (env : Env) (v : List ℚ) : ℚ := env.sqrt ((v.map fun x => x * x).sum)

/-- Models `_calculate_distance` (lines 361-370): row-wise Euclidean distance
between the preprocessed feature columns and the reconstructed feature
columns. -/
def calculateDistance (env : Env) (x1 x2 : List (List ℚ)) : List ℚ :=
  (x1.zip x2).map fun p => euclideanNorm env (rowSub p.1 p.2)

/-- Models `_calculate_reconstruction_error_for_data` (lines 280-352): impute and
encode and scale every row, project with the PCA, reconstruct, compute the
row-wise Euclidean distance between each standardized row and its
reconstruction, and return the mean of the `rc_error` column. -/
def reconstructionErrorForData (env : Env) (featureCols catCols contCols : List String)
    (a : FittedArtifacts) (data : DataFrame) : ℚ :=
  let preprocessed := data.rows.map (preprocessRow a featureCols catCols contCols data)
  let reducedData := preprocessed.map a.project
  let reconstructed := reducedData.map a.reconstruct
  let rcError := calculateDistance env preprocessed reconstructed
  listMean rcError

/-- Models `_add_alert_flag` (lines 373-381), per row: `True` iff the
reconstruction error is strictly above the upper threshold or strictly
below the lower one. -/
def addAlertFlag (reconstructionError upperThreshold lowerThreshold : ℚ) : Bool :=
  if reconstructionError > upperThreshold ∨ reconstructionError < lowerThreshold then true
  else false

/-- The chunker arguments of the `_calculate` call site (lines 217-222):
`split(data, columns=feature_column_names,`
`minimum_chunk_size=_minimum_chunk_size(feature_column_names),`
`timestamp_column_name=timestamp_column_name)`. -/
def calculateSplitArgs (env : Env) (c : Calculator) (data : DataFrame) : SplitArgs :=
  { data := data
    columns := ColumnsArg.ofList c.featureColumnNames
    minimumChunkSize := some (minimumChunkSize env c.featureColumnNames)
    timestampColumnName := some c.timestampColumnName }

/-- The chunker arguments of the `_calculate_alert_thresholds` call site
(line 256): `split(reference_data, self.timestamp_column_name)` — the
timestamp column name lands positionally in the `columns` slot and no
minimum chunk size or timestamp keyword is passed. -/
def thresholdSplitArgs (c : Calculator) (referenceData : DataFrame) : SplitArgs :=
  { data := referenceData
    columns := ColumnsArg.ofString c.timestampColumnName
    minimumChunkSize := none
    timestampColumnName := none }

/-- The per-chunk record of lines 226-244 (chunk identity, period — a
transition chunk is relabeled `analysis` — and reconstruction error),
before the threshold and alert columns are added. -/
structure ChunkRecord where
  key : String
  startIndex : Nat
  endIndex : Nat
  startDate : Int
  endDate : Int
  period : String
  reconstructionError : ℚ
deriving DecidableEq

/-- Builds one record of lines 226-244 from a chunk. -/
def chunkRecord (env : Env) (featureCols catCols contCols : List String)
    (a : FittedArtifacts) (chunk : Chunk) : ChunkRecord :=
  { key := chunk.key
    startIndex := chunk.startIndex
    endIndex := chunk.endIndex
    startDate := chunk.startDate
    endDate := chunk.endDate
    period := if chunk.isTransition then "analysis" else chunk.period
    reconstructionError :=
      reconstructionErrorForData env featureCols catCols contCols a chunk.data }

/-- Lines 224-251: the per-chunk records, then the constant threshold
columns and the alert column stamped onto every row. -/
def resultRows (env : Env) (featureCols catCols contCols : List String) (a : FittedArtifacts)
    (upperThreshold lowerThreshold : ℚ) (chunks : List Chunk) : List ResultRow :=
  let records := chunks.map (chunkRecord env featureCols catCols contCols a)
  records.map fun r =>
    { key := r.key
      startIndex := r.startIndex
      endIndex := r.endIndex
      startDate := r.startDate
      endDate := r.endDate
      period := r.period
      reconstructionError := r.reconstructionError
      lowerThreshold := lowerThreshold
      upperThreshold := upperThreshold
      alert := addAlertFlag r.reconstructionError upperThreshold lowerThreshold }

/-- Models `_calculate` (lines 178-253).  The fitted artifacts and thresholds are
passed explicitly: in the source they are read from `self` and are only
non-`None` in the fitted state, which the `calculate` wrapper below
guarantees.  Returns the (possibly mutated) state — `_calculate`
re-derives the continuous/categorical split from the current data — and
the result rows or the validation error. -/
def calcCore (env : Env) (c : Calculator) (a : FittedArtifacts)
    (upperThreshold lowerThreshold : ℚ) (data : DataFrame) :
    Calculator × Except CalcError (List ResultRow) :=
  if data.rows.isEmpty then (c, .error (.invalidArguments emptyDataMsg))
  else
    let missing := missingColumns c.featureColumnNames data
    if missing.isEmpty then
      let split := splitFeaturesByType data c.featureColumnNames
      let c' := { c with continuousFeatureColumnNames := split.1
                         categoricalFeatureColumnNames := split.2 }
      (c', .ok (resultRows env c.featureColumnNames split.2 split.1 a
                  upperThreshold lowerThreshold
                  (env.chunkerSplit (calculateSplitArgs env c data))))
    else (c, .error (.invalidArguments (missingColumnsMsg missing)))

/-- Models `_calculate_alert_thresholds` (lines 255-277): split the reference
data (without a minimum chunk size, see `thresholdSplitArgs`), compute the
reconstruction error of every reference chunk with the fitted artifacts,
and return `(mean + 3·std, mean − 3·std)` of that series. -/
def calculateAlertThresholds (env : Env) (c : Calculator) (a : FittedArtifacts)
    (referenceData : DataFrame) : ℚ × ℚ :=
  let referenceChunks := env.chunkerSplit (thresholdSplitArgs c referenceData)
  let errors := referenceChunks.map fun chunk =>
    reconstructionErrorForData env c.featureColumnNames c.categoricalFeatureColumnNames
      c.continuousFeatureColumnNames a chunk.data
  (listMean errors + 3 * sampleStd env errors,
   listMean errors - 3 * sampleStd env errors)

/-- Models `_fit` (lines 107-176): validate (empty data, then missing columns),
re-derive the feature split, fit the artifacts on the reference data,
store them, compute and store the alert thresholds, then store the result
of `_calculate` on the reference data itself as the reference snapshot.
An error leaves the mutations already performed in place, exactly as a
raised Python exception would. -/
def fit (env : Env) (c : Calculator) (referenceData : DataFrame) :
    Calculator × Except CalcError Unit :=
  if referenceData.rows.isEmpty then (c, .error (.invalidArguments emptyDataMsg))
  else
    let missing := missingColumns c.featureColumnNames referenceData
    if missing.isEmpty then
      let split := splitFeaturesByType referenceData c.featureColumnNames
      let a := env.fitArtifacts referenceData c.featureColumnNames split.1 split.2
      let c1 := { c with continuousFeatureColumnNames := split.1
                         categoricalFeatureColumnNames := split.2
                         artifacts := some a }
      let thresholds := calculateAlertThresholds env c1 a referenceData
      let c2 := { c1 with upperAlertThreshold := some thresholds.1
                          lowerAlertThreshold := some thresholds.2 }
      match calcCore env c2 a thresholds.1 thresholds.2 referenceData with
      | (c3, .ok rows) => ({ c3 with previousReferenceResults := some rows }, .ok ())
      | (c3, .error e) => (c3, .error e)
    else (c, .error (.invalidArguments (missingColumnsMsg missing)))

/-- Modelled from the spec: the public `calculate` entry point inherited
from `nannyml.base.AbstractCalculator` (not among the sources) "requires
`fitted` state (else: not-fitted error)"; in the unfitted state the
artifacts and thresholds created empty at construction are still `None`
and the state error is raised before anything runs, so the state is
returned untouched. -/
def calculate (env : Env) (c : Calculator) (data : DataFrame) :
    Calculator × Except CalcError (List ResultRow) :=
  match c.artifacts, c.upperAlertThreshold, c.lowerAlertThreshold with
  | some a, some upper, some lower => calcCore env c a upper lower data
  | _, _, _ => (c, .error (.notFitted notFittedMsg))

/-- Modelled from the spec: plotting is out of the specified scope
(`nannyml.plots._step_plot` is not among the sources); a figure is
represented by the table handed to `_step_plot` together with the
period-separator flag, recording exactly what the result module passes
to it. -/
structure Figure where
  table : List ResultRow
  vLineSeparatingAnalysisPeriod : Bool

/-- The result object (`DataReconstructionDriftCalculatorResult`): the
stored result table and the owning calculator. -/
structure CalculatorResult where
  data : List ResultRow
  calculator : Calculator

/-- Sets the `period` column of every row of a table: the in-place pandas
column assignments of `_plot_drift`. -/
def setPeriodColumn (rows : List ResultRow) (period : String) : List ResultRow :=
  rows.map fun r => { r with period := period }

/-- Models `_plot_drift` (lines 75-98 of results.py): overwrite the `period`
column of the passed result table with `'analysis'` (a pandas in-place
mutation of the table the result object stores); when `plot_reference` is
set, additionally overwrite the `period` column of the calculator's stored
reference results with `'reference'` (again in place) and prepend them to
the plotted table.  Returns the mutated result table, the mutated
calculator and the figure. -/
def plotDrift (data : List ResultRow) (calculator : Calculator) (plotReference : Bool) :
    List ResultRow × Calculator × Figure :=
  let plotPeriodSeparator := plotReference
  let data' := setPeriodColumn data "analysis"
  if plotReference then
    let referenceResults := setPeriodColumn (calculator.previousReferenceResults.getD []) "reference"
    let calculator' := { calculator with previousReferenceResults := some referenceResults }
    (data', calculator', { table := referenceResults ++ data'
                           vLineSeparatingAnalysisPeriod := plotPeriodSeparator })
  else
    (data', calculator, { table := data'
                          vLineSeparatingAnalysisPeriod := plotPeriodSeparator })

/-- The message of the unknown-plot-kind error (lines 64-68 of
results.py). -/
def unknownPlotKindMsg (kind : String) : String :=
  "unknown plot kind \x27" ++ kind ++
    "\x27. Please provide on of: [feature_drift, feature_distribution, prediction_drift, prediction_distribution]."

/-- Models `DataReconstructionDriftCalculatorResult.plot` (lines 33-68 of
results.py): dispatch on the plot kind string; only `'drift'` is
supported, any other kind raises the invalid-argument error naming the
kind.  Returns the (possibly mutated) result object and the figure or the
error. -/
def CalculatorResult.plot (res : CalculatorResult) (kind : String) (plotReference : Bool) :
    CalculatorResult × Except CalcError Figure :=
  if kind = "drift" then
    let out := plotDrift res.data res.calculator plotReference
    ({ data := out.1, calculator := out.2.1 }, .ok out.2.2)
  else (res, .error (.invalidArguments (unknownPlotKindMsg kind)))

/-- Written from the spec's words, for the refinement claim about the
reconstruction-error algorithm: the standardized (pre-reconstruction)
feature vector of one row — "impute missing values, frequency-encode all
features, standardize". -/
def standardizedRowSpec (a : FittedArtifacts) (featureCols catCols contCols : List String)
    (data : DataFrame) (row : List Cell) : List ℚ :=
  featureCols.map fun col =>
    let imputed := imputeCell a catCols contCols col (featureCell data row col)
    let encoded := a.encode col imputed
    (encoded - a.scalerMean col) / a.scalerScale col

/-- Written from the spec's words: the Euclidean distance between two
feature vectors. -/
def euclideanDistanceSpec (env : Env) (u v : List ℚ) : ℚ :=
  env.sqrt (((u.zip v).map fun p => (p.1 - p.2) * (p.1 - p.2)).sum)

/-- Written from the spec's words (spec 4.3): per row, standardize the
features (impute, frequency-encode, standardize), "project, reconstruct,
compute row-wise Euclidean distance between the standardized
(pre-reconstruction) feature vector and its reconstruction, return the
mean distance across rows in the batch". -/
def reconstructionErrorSpec (env : Env) (featureCols catCols contCols : List String)
    (a : FittedArtifacts) (data : DataFrame) : ℚ :=
  listMean (data.rows.map fun row =>
    let z := standardizedRowSpec a featureCols catCols contCols data row
    euclideanDistanceSpec env z (a.reconstruct (a.project z)))

/-!  Concrete fixtures used by the witnesses: a trivial environment with
identity square root, a chunker that returns the whole dataset as a single
reference chunk, trivial fitted artifacts, and a one-row dataset with one
feature column. -/

/-- Trivial fitted artifacts for witnesses. -/
def artW : FittedArtifacts :=
  { imputerCatFill := fun _ => 0
    imputerContFill := fun _ => 0
    encode := fun _ v => v.getD 0
    scalerMean := fun _ => 0
    scalerScale := fun _ => 1
    project := fun v => v
    reconstruct := fun v => v }

/-- Trivial environment for witnesses. -/
def envW : Env :=
  { sqrt := fun x => x
    pow56 := fun n => (n : ℚ)
    chunkerSplit := fun args =>
      [{ key := "[0:0]"
         startIndex := 0
         endIndex := 0
         startDate := 0
         endDate := 0
         period := "reference"
         isTransition := false
         data := args.data }]
    fitArtifacts := fun _ _ _ _ => artW }

/-- A one-row reference dataset with feature column `f1` and timestamp
column `ts`. -/
def refW : DataFrame :=
  { columns := ["f1", "ts"]
    continuousDtype := fun _ => true
    rows := [[some 1, some 0]] }

/-- A dataset with the right columns but no rows. -/
def emptyDFW : DataFrame :=
  { columns := ["f1", "ts"]
    continuousDtype := fun _ => true
    rows := [] }

/-- A non-empty dataset missing the declared feature column `f1`. -/
def missingDFW : DataFrame :=
  { columns := ["ts"]
    continuousDtype := fun _ => true
    rows := [[some 0]] }

/-- A fresh calculator on feature column `f1` and timestamp column `ts`. -/
def calcW : Calculator := mkCalculator ["f1"] "ts"

/-- The single result row the fixtures produce. -/
def rowW : ResultRow :=
  { key := "[0:0]"
    startIndex := 0
    endIndex := 0
    startDate := 0
    endDate := 0
    period := "reference"
    reconstructionError := 0
    lowerThreshold := 0
    upperThreshold := 0
    alert := false }

/-- A result object holding the fixture row and the fitted fixture
calculator. -/
def resW : CalculatorResult :=
  { data := [rowW], calculator := (fit envW calcW refW).1 }

/-- The fixture calculator after fitting on the fixture reference data. -/
def fitW : Calculator := (fit envW calcW refW).1

/-- The result rows of calculating on the fixture reference data with the
fitted fixture calculator. -/
def rowsW : List ResultRow :=
  match (calculate envW fitW refW).2 with
  | .ok rows => rows
  | .error _ => []

/-!  Helper lemmas. -/

/-- Mapping over the zip of two maps of one list is a single map. -/
theorem map_zip_map {α β γ δ : Type _} (l : List α) (f : α → β) (g : α → γ) (h : β × γ → δ) :
    ((l.map f).zip (l.map g)).map h = l.map fun x => h (f x, g x) := by
  induction l with
  | nil => rfl
  | cons a t ih => simp [ih]

/-- The row-wise Euclidean norm of a difference is the Euclidean distance
of the spec. -/
theorem euclideanNorm_rowSub (env : Env) (u v : List ℚ) :
    euclideanNorm env (rowSub u v) = euclideanDistanceSpec env u v := by
  unfold euclideanNorm rowSub euclideanDistanceSpec
  rw [List.map_map]
  rfl

/-- A successful fit implies the data was non-empty and no declared
feature column was missing. -/
theorem fit_success_conds (env : Env) (c : Calculator) (ref : DataFrame)
    (h : (fit env c ref).2 = Except.ok ()) :
    ref.rows.isEmpty = false ∧ (missingColumns c.featureColumnNames ref).isEmpty = true := by
  cases hE : ref.rows.isEmpty with
  | true => simp [fit, hE] at h
  | false =>
    cases hM : (missingColumns c.featureColumnNames ref).isEmpty with
    | false => simp [fit, hE, hM] at h
    | true => exact ⟨rfl, rfl⟩

/-- The explicit shape of a successful fit: split the features, fit the
artifacts, compute the thresholds, store the reference snapshot. -/
theorem fit_success_shape (env : Env) (c : Calculator) (ref : DataFrame)
    (hE : ref.rows.isEmpty = false)
    (hM : (missingColumns c.featureColumnNames ref).isEmpty = true) :
    fit env c ref =
      (let split := splitFeaturesByType ref c.featureColumnNames
       let a := env.fitArtifacts ref c.featureColumnNames split.1 split.2
       let c1 : Calculator :=
         { c with continuousFeatureColumnNames := split.1
                  categoricalFeatureColumnNames := split.2
                  artifacts := some a }
       let thresholds := calculateAlertThresholds env c1 a ref
       ({ c1 with
            upperAlertThreshold := some thresholds.1
            lowerAlertThreshold := some thresholds.2
            previousReferenceResults := some (resultRows env c.featureColumnNames split.2 split.1 a
              thresholds.1 thresholds.2 (env.chunkerSplit (calculateSplitArgs env c ref))) },
        Except.ok ())) := by
  simp only [fit, calcCore, hE, hM, Bool.false_eq_true, if_false, if_true]
  rfl

/-- Calculating never touches the stored thresholds, whatever the state
and the data. -/
theorem calculate_preserves_thresholds (env : Env) (c : Calculator) (data : DataFrame) :
    (calculate env c data).1.upperAlertThreshold = c.upperAlertThreshold ∧
    (calculate env c data).1.lowerAlertThreshold = c.lowerAlertThreshold := by
  unfold calculate
  cases ha : c.artifacts with
  | none => exact ⟨rfl, rfl⟩
  | some a =>
    cases hu : c.upperAlertThreshold with
    | none =>
      cases hl : c.lowerAlertThreshold with
      | none => constructor <;> simp [hu, hl]
      | some l => constructor <;> simp [hu, hl]
    | some u =>
      cases hl : c.lowerAlertThreshold with
      | none => constructor <;> simp [hu, hl]
      | some l =>
        unfold calcCore
        cases hE : data.rows.isEmpty with
        | true => simp [hE, hu, hl]
        | false =>
          cases hM : (missingColumns c.featureColumnNames data).isEmpty with
          | false => simp [hE, hM, hu, hl]
          | true => simp [hE, hM, hu, hl]

/-- A successful calculate comes from the fitted state and produces
exactly the stamped per-chunk rows. -/
theorem calculate_ok_spec (env : Env) (c : Calculator) (data : DataFrame) (rows : List ResultRow)
    (h : (calculate env c data).2 = Except.ok rows) :
    ∃ a u l, c.artifacts = some a ∧ c.upperAlertThreshold = some u ∧
      c.lowerAlertThreshold = some l ∧
      rows = resultRows env c.featureColumnNames
        (splitFeaturesByType data c.featureColumnNames).2
        (splitFeaturesByType data c.featureColumnNames).1 a u l
        (env.chunkerSplit (calculateSplitArgs env c data)) := by
  unfold calculate at h
  cases ha : c.artifacts with
  | none => rw [ha] at h; simp at h
  | some a =>
    cases hu : c.upperAlertThreshold with
    | none => rw [ha, hu] at h; simp at h
    | some u =>
      cases hl : c.lowerAlertThreshold with
      | none => rw [ha, hu, hl] at h; simp at h
      | some l =>
        rw [ha, hu, hl] at h
        have h' : (calcCore env c a u l data).2 = Except.ok rows := h
        cases hE : data.rows.isEmpty with
        | true => simp [calcCore, hE] at h'
        | false =>
          cases hM : (missingColumns c.featureColumnNames data).isEmpty with
          | false => simp [calcCore, hE, hM] at h'
          | true =>
            simp only [calcCore, hE, hM, Bool.false_eq_true, if_false, if_true] at h'
            exact ⟨a, u, l, rfl, rfl, rfl, (Except.ok.inj h').symm⟩

/-- Every row of a stamped result table carries the stamped thresholds and
the alert flag computed from them. -/
theorem mem_resultRows_thresholds (env : Env) (fc cc kc : List String) (a : FittedArtifacts)
    (u l : ℚ) (chunks : List Chunk) (r : ResultRow)
    (h : r ∈ resultRows env fc cc kc a u l chunks) :
    r.upperThreshold = u ∧ r.lowerThreshold = l ∧
    r.alert = addAlertFlag r.reconstructionError u l := by
  unfold resultRows at h
  simp only [List.map_map, List.mem_map, Function.comp] at h
  obtain ⟨ch, -, rfl⟩ := h
  exact ⟨rfl, rfl, rfl⟩

/-- C1: For every non-empty chunk batch and fitted artifacts, the
reconstruction-error function computes its scalar by the exact step
sequence of the spec: impute missing values, frequency-encode all
features, standardize, project with the reduction model, reconstruct, take
the row-wise Euclidean distance between each standardized
pre-reconstruction feature vector and its reconstruction, and return the
mean of those distances over the rows of the batch. -/
theorem reconstruction_error_step_sequence (env : Env)
    (featureCols catCols contCols : List String) (a : FittedArtifacts) (data : DataFrame)
    (h : data.rows ≠ []) :
    reconstructionErrorForData env featureCols catCols contCols a data =
      reconstructionErrorSpec env featureCols catCols contCols a data := by
  unfold reconstructionErrorForData reconstructionErrorSpec calculateDistance
  simp only [List.map_map]
  rw [map_zip_map]
  simp only [euclideanNorm_rowSub]
  rfl

/-- Witness for C1 at a concrete one-row batch. -/
theorem reconstruction_error_step_sequence_witness :
    refW.rows ≠ [] ∧
    reconstructionErrorForData envW ["f1"] [] ["f1"] artW refW =
      reconstructionErrorSpec envW ["f1"] [] ["f1"] artW refW :=
  ⟨by decide, reconstruction_error_step_sequence envW ["f1"] [] ["f1"] artW refW (by decide)⟩

/-- C2: For one fitted calculator, the alert thresholds are computed
exactly once during fit as `mean + 3·std` and `mean − 3·std` of the
per-chunk reconstruction-error series over the reference chunks, are never
recomputed during calculate, and appear unchanged on every row of every
later calculate result. -/
theorem alert_thresholds_computed_once (env : Env) (c : Calculator) (ref : DataFrame)
    (h : (fit env c ref).2 = Except.ok ()) :
    (let split := splitFeaturesByType ref c.featureColumnNames
     let a := env.fitArtifacts ref c.featureColumnNames split.1 split.2
     let errors := (env.chunkerSplit (thresholdSplitArgs c ref)).map fun chunk =>
       reconstructionErrorForData env c.featureColumnNames split.2 split.1 a chunk.data
     (fit env c ref).1.upperAlertThreshold = some (listMean errors + 3 * sampleStd env errors) ∧
     (fit env c ref).1.lowerAlertThreshold = some (listMean errors - 3 * sampleStd env errors)) ∧
    (∀ (c' : Calculator) (data : DataFrame),
       (calculate env c' data).1.upperAlertThreshold = c'.upperAlertThreshold ∧
       (calculate env c' data).1.lowerAlertThreshold = c'.lowerAlertThreshold) ∧
    (∀ (c' : Calculator) (data : DataFrame) (rows : List ResultRow),
       (calculate env c' data).2 = Except.ok rows →
       ∀ r ∈ rows, some r.upperThreshold = c'.upperAlertThreshold ∧
                   some r.lowerThreshold = c'.lowerAlertThreshold) := by
  obtain ⟨hE, hM⟩ := fit_success_conds env c ref h
  refine ⟨?_, ?_, ?_⟩
  · rw [fit_success_shape env c ref hE hM]
    exact ⟨rfl, rfl⟩
  · intro c' data
    exact calculate_preserves_thresholds env c' data
  · intro c' data rows hok r hr
    obtain ⟨a, u, l, ha, hu, hl, hrows⟩ := calculate_ok_spec env c' data rows hok
    subst hrows
    obtain ⟨hU, hL, -⟩ := mem_resultRows_thresholds _ _ _ _ _ _ _ _ _ hr
    rw [hU, hL, hu, hl]
    exact ⟨rfl, rfl⟩

/-- Witness for C2: the fixture fit succeeds and a later calculate
preserves the thresholds it stored. -/
theorem alert_thresholds_computed_once_witness :
    (fit envW calcW refW).2 = Except.ok () ∧
    (calculate envW (fit envW calcW refW).1 refW).1.upperAlertThreshold =
      (fit envW calcW refW).1.upperAlertThreshold ∧
    (calculate envW (fit envW calcW refW).1 refW).1.lowerAlertThreshold =
      (fit envW calcW refW).1.lowerAlertThreshold :=
  ⟨rfl,
   ((alert_thresholds_computed_once envW calcW refW rfl).2.1 (fit envW calcW refW).1 refW).1,
   ((alert_thresholds_computed_once envW calcW refW rfl).2.1 (fit envW calcW refW).1 refW).2⟩

/-- C3: For every row of every calculate result, the alert flag is true if
and only if the reconstruction error is strictly greater than the upper
threshold or strictly less than the lower threshold; with ordered
thresholds, a reconstruction error exactly equal to either threshold
yields a false alert. -/
theorem alert_flag_strict (env : Env) (c : Calculator) (data : DataFrame)
    (rows : List ResultRow) (h : (calculate env c data).2 = Except.ok rows) :
    ∀ r ∈ rows,
      (r.alert = true ↔
        (r.reconstructionError > r.upperThreshold ∨
         r.reconstructionError < r.lowerThreshold)) ∧
      (r.lowerThreshold ≤ r.upperThreshold →
        (r.reconstructionError = r.upperThreshold ∨ r.reconstructionError = r.lowerThreshold) →
        r.alert = false) := by
  intro r hr
  obtain ⟨a, u, l, -, -, -, hrows⟩ := calculate_ok_spec env c data rows h
  subst hrows
  obtain ⟨hU, hL, hA⟩ := mem_resultRows_thresholds _ _ _ _ _ _ _ _ _ hr
  constructor
  · rw [hA, hU, hL]
    by_cases hp : (r.reconstructionError > u ∨ r.reconstructionError < l)
    · simp [addAlertFlag, hp]
    · simp [addAlertFlag, hp]
  · intro hle heq
    rw [hU, hL] at hle heq
    have hnot : ¬ (r.reconstructionError > u ∨ r.reconstructionError < l) := by
      rcases heq with he | he
      · rw [he]
        rintro (hgt | hlt)
        · exact lt_irrefl _ hgt
        · exact absurd hlt (not_lt.mpr hle)
      · rw [he]
        rintro (hgt | hlt)
        · exact absurd hgt (not_lt.mpr hle)
        · exact lt_irrefl _ hlt
    rw [hA]
    simp [addAlertFlag, hnot]

/-- Witness for C3: the fixture calculate succeeds, so the alert/threshold
relation holds on its rows. -/
theorem alert_flag_strict_witness :
    (calculate envW fitW refW).2 = Except.ok rowsW ∧
    ∀ r ∈ rowsW,
      (r.alert = true ↔
        (r.reconstructionError > r.upperThreshold ∨
         r.reconstructionError < r.lowerThreshold)) ∧
      (r.lowerThreshold ≤ r.upperThreshold →
        (r.reconstructionError = r.upperThreshold ∨ r.reconstructionError = r.lowerThreshold) →
        r.alert = false) :=
  ⟨rfl, alert_flag_strict envW fitW refW rowsW rfl⟩

/-- C4 counterexample: at the concrete fixture, the chunker arguments of
the fit-time threshold computation do not carry the minimum chunk size
`20 · features^(5/6)` computed by the minimum-chunk-size policy. -/
theorem threshold_split_min_chunk_counterexample :
    ¬ ((thresholdSplitArgs calcW refW).minimumChunkSize =
        some (minimumChunkSize envW calcW.featureColumnNames)) := by
  intro hcontra
  simp [thresholdSplitArgs] at hcontra

/-- C4 (amended): during fit, the threshold-deriving chunked computation
splits the reference data without passing any minimum chunk size — the
chunker is called with only the reference data and the timestamp column
name, the latter landing in the columns slot — whereas calculate passes
the minimum chunk size `int(20 · features^(5/6))`; the fit-stored upper
threshold indeed derives from the chunking with those no-minimum
arguments. -/
theorem threshold_split_without_min_chunk (env : Env) (c : Calculator) (ref data : DataFrame)
    (h : (fit env c ref).2 = Except.ok ()) :
    (thresholdSplitArgs c ref).minimumChunkSize = none ∧
    (thresholdSplitArgs c ref).columns = ColumnsArg.ofString c.timestampColumnName ∧
    (calculateSplitArgs env c data).minimumChunkSize =
      some (minimumChunkSize env c.featureColumnNames) ∧
    (let split := splitFeaturesByType ref c.featureColumnNames
     let a := env.fitArtifacts ref c.featureColumnNames split.1 split.2
     let errors := (env.chunkerSplit (thresholdSplitArgs c ref)).map fun chunk =>
       reconstructionErrorForData env c.featureColumnNames split.2 split.1 a chunk.data
     (fit env c ref).1.upperAlertThreshold =
       some (listMean errors + 3 * sampleStd env errors)) := by
  obtain ⟨hE, hM⟩ := fit_success_conds env c ref h
  refine ⟨rfl, rfl, rfl, ?_⟩
  rw [fit_success_shape env c ref hE hM]
  rfl

/-- Witness for the amended C4 at the fixture. -/
theorem threshold_split_without_min_chunk_witness :
    (fit envW calcW refW).2 = Except.ok () ∧
    (thresholdSplitArgs calcW refW).minimumChunkSize = none ∧
    (calculateSplitArgs envW calcW refW).minimumChunkSize =
      some (minimumChunkSize envW calcW.featureColumnNames) :=
  ⟨rfl, (threshold_split_without_min_chunk envW calcW refW refW rfl).1,
        (threshold_split_without_min_chunk envW calcW refW refW rfl).2.2.1⟩

/-- Any member of a separator join is a substring of the join. -/
theorem joinSep_decomp (sep col : String) :
    ∀ (cols : List String), col ∈ cols →
      ∃ p q : String, joinSep sep cols = p ++ col ++ q := by
  intro cols
  induction cols with
  | nil => intro h; exact absurd h (List.not_mem_nil col)
  | cons c cs ih =>
    intro h
    cases cs with
    | nil =>
      have hc : col = c := by simpa using h
      subst hc
      exact ⟨"", "", by simp [joinSep, String.empty_append, String.append_empty]⟩
    | cons c2 cs2 =>
      rcases List.mem_cons.mp h with rfl | h2
      · refine ⟨"", sep ++ joinSep sep (c2 :: cs2), ?_⟩
        simp [joinSep, String.empty_append, String.append_assoc]
      · obtain ⟨p, q, hpq⟩ := ih h2
        refine ⟨c ++ sep ++ p, q, ?_⟩
        rw [joinSep, hpq]
        simp [String.append_assoc]

/-- C5: For every dataset that is empty, fit raises the data-validation
error; for a dataset lacking at least one declared feature column, fit
raises the data-validation error whose message names the missing columns;
calculate raises the same errors under exactly the same conditions. -/
theorem data_validation_errors (env : Env) (c : Calculator) (a : FittedArtifacts)
    (u l : ℚ) (data : DataFrame)
    (ha : c.artifacts = some a) (hu : c.upperAlertThreshold = some u)
    (hl : c.lowerAlertThreshold = some l) :
    (data.rows.isEmpty = true →
      (fit env c data).2 = Except.error (.invalidArguments emptyDataMsg) ∧
      (calculate env c data).2 = Except.error (.invalidArguments emptyDataMsg)) ∧
    (data.rows.isEmpty = false →
     (missingColumns c.featureColumnNames data).isEmpty = false →
      ((fit env c data).2 =
         Except.error
           (.invalidArguments (missingColumnsMsg (missingColumns c.featureColumnNames data))) ∧
       (calculate env c data).2 =
         Except.error
           (.invalidArguments (missingColumnsMsg (missingColumns c.featureColumnNames data))) ∧
       ∀ col ∈ missingColumns c.featureColumnNames data,
         ∃ pre post : String,
           missingColumnsMsg (missingColumns c.featureColumnNames data) =
             pre ++ col ++ post)) := by
  constructor
  · intro hE
    constructor
    · simp [fit, hE]
    · simp [calculate, ha, hu, hl, calcCore, hE]
  · intro hE hM
    refine ⟨?_, ?_, ?_⟩
    · simp [fit, hE, hM]
    · simp [calculate, ha, hu, hl, calcCore, hE, hM]
    · intro col hcol
      obtain ⟨p, q, hpq⟩ :=
        joinSep_decomp ", " col (missingColumns c.featureColumnNames data) hcol
      refine ⟨"data does not contain columns \x27[" ++ p, q ++ "]\x27.", ?_⟩
      rw [missingColumnsMsg, hpq]
      simp [String.append_assoc]

/-- Witness for C5: the fixture calculator raises both validation errors
on the empty and on the missing-column dataset, and the message names the
missing column `f1`. -/
theorem data_validation_errors_witness :
    (fit envW fitW emptyDFW).2 = Except.error (.invalidArguments emptyDataMsg) ∧
    (calculate envW fitW emptyDFW).2 = Except.error (.invalidArguments emptyDataMsg) ∧
    (fit envW fitW missingDFW).2 =
      Except.error
        (.invalidArguments (missingColumnsMsg (missingColumns fitW.featureColumnNames missingDFW))) ∧
    (calculate envW fitW missingDFW).2 =
      Except.error
        (.invalidArguments (missingColumnsMsg (missingColumns fitW.featureColumnNames missingDFW))) ∧
    ∃ pre post : String,
      missingColumnsMsg (missingColumns fitW.featureColumnNames missingDFW) =
        pre ++ "f1" ++ post := by
  have hart : fitW.artifacts = some artW := rfl
  have hup : fitW.upperAlertThreshold = some (fitW.upperAlertThreshold.getD 0) := rfl
  have hlo : fitW.lowerAlertThreshold = some (fitW.lowerAlertThreshold.getD 0) := rfl
  have h1 := data_validation_errors envW fitW artW _ _ emptyDFW hart hup hlo
  have h2 := data_validation_errors envW fitW artW _ _ missingDFW hart hup hlo
  obtain ⟨hA, hB⟩ := h1.1 rfl
  obtain ⟨hC, hD, hE⟩ := h2.2 rfl rfl
  exact ⟨hA, hB, hC, hD, hE "f1" (by decide)⟩

/-- C6: in the unfitted state produced by construction, calculate raises
the not-fitted state error and returns the calculator state completely
unchanged — in particular the continuous/categorical split and the (still
absent) fitted artifacts are untouched. -/
theorem calculate_before_fit_state_error (env : Env) (featureCols : List String)
    (ts : String) (data : DataFrame) :
    calculate env (mkCalculator featureCols ts) data =
      (mkCalculator featureCols ts, Except.error (.notFitted notFittedMsg)) := rfl

/-- C7: fit followed by calculate on the same reference data reproduces
the reference-period snapshot stored on the calculator during fit. -/
theorem fit_then_calculate_reproduces_snapshot (env : Env) (c : Calculator) (ref : DataFrame)
    (h : (fit env c ref).2 = Except.ok ()) :
    ∃ rows, (fit env c ref).1.previousReferenceResults = some rows ∧
            (calculate env (fit env c ref).1 ref).2 = Except.ok rows := by
  obtain ⟨hE, hM⟩ := fit_success_conds env c ref h
  rw [fit_success_shape env c ref hE hM]
  refine ⟨_, rfl, ?_⟩
  simp only [calculate, calcCore, hE, hM, Bool.false_eq_true, if_false, if_true]
  rfl

/-- Witness for C7 at the fixture. -/
theorem fit_then_calculate_reproduces_snapshot_witness :
    (fit envW calcW refW).2 = Except.ok () ∧
    ∃ rows, (fit envW calcW refW).1.previousReferenceResults = some rows ∧
            (calculate envW (fit envW calcW refW).1 refW).2 = Except.ok rows :=
  ⟨rfl, fit_then_calculate_reproduces_snapshot envW calcW refW rfl⟩

/-- C8: every calculate result has exactly one row per chunk returned by
the chunker, in the chunker's order (the row at every index carries that
chunk's key and index range), and a transition chunk is labeled with
period `analysis` while every other chunk keeps its own period tag. -/
theorem one_row_per_chunk_in_order (env : Env) (c : Calculator) (data : DataFrame)
    (rows : List ResultRow) (h : (calculate env c data).2 = Except.ok rows) :
    rows.length = (env.chunkerSplit (calculateSplitArgs env c data)).length ∧
    ∀ (i : Nat) (h1 : i < rows.length)
      (h2 : i < (env.chunkerSplit (calculateSplitArgs env c data)).length),
      (rows.get ⟨i, h1⟩).key =
        ((env.chunkerSplit (calculateSplitArgs env c data)).get ⟨i, h2⟩).key ∧
      (rows.get ⟨i, h1⟩).startIndex =
        ((env.chunkerSplit (calculateSplitArgs env c data)).get ⟨i, h2⟩).startIndex ∧
      (rows.get ⟨i, h1⟩).endIndex =
        ((env.chunkerSplit (calculateSplitArgs env c data)).get ⟨i, h2⟩).endIndex ∧
      (rows.get ⟨i, h1⟩).period =
        (if ((env.chunkerSplit (calculateSplitArgs env c data)).get ⟨i, h2⟩).isTransition
         then "analysis"
         else ((env.chunkerSplit (calculateSplitArgs env c data)).get ⟨i, h2⟩).period) := by
  obtain ⟨a, u, l, -, -, -, hrows⟩ := calculate_ok_spec env c data rows h
  subst hrows
  constructor
  · simp [resultRows]
  · intro i h1 h2
    simp only [resultRows, List.map_map, List.get_eq_getElem, List.getElem_map,
      Function.comp]
    exact ⟨rfl, rfl, rfl, rfl⟩

/-- Witness for C8 at the fixture. -/
theorem one_row_per_chunk_in_order_witness :
    (calculate envW fitW refW).2 = Except.ok rowsW ∧
    rowsW.length = (envW.chunkerSplit (calculateSplitArgs envW fitW refW)).length :=
  ⟨rfl, (one_row_per_chunk_in_order envW fitW refW rowsW rfl).1⟩

/-- C9: the plot entry point dispatches on the kind string; every kind
other than `drift` raises the invalid-argument error whose message names
the unsupported kind, while kind `drift` returns a figure. -/
theorem plot_kind_dispatch (res : CalculatorResult) (kind : String) (plotReference : Bool) :
    (kind ≠ "drift" →
      CalculatorResult.plot res kind plotReference =
        (res, Except.error (.invalidArguments (unknownPlotKindMsg kind))) ∧
      ∃ pre post : String, unknownPlotKindMsg kind = pre ++ kind ++ post) ∧
    (kind = "drift" →
      ∃ fig, (CalculatorResult.plot res kind plotReference).2 = Except.ok fig) := by
  constructor
  · intro hk
    constructor
    · simp [CalculatorResult.plot, hk]
    · exact ⟨"unknown plot kind \x27",
        "\x27. Please provide on of: [feature_drift, feature_distribution, prediction_drift, prediction_distribution].",
        rfl⟩
  · intro hk
    subst hk
    exact ⟨(plotDrift res.data res.calculator plotReference).2.2, rfl⟩

/-- Witness for C9: the unsupported kind of the spec's scenario errors and
kind drift plots. -/
theorem plot_kind_dispatch_witness :
    CalculatorResult.plot resW "not_a_real_kind" false =
      (resW, Except.error (.invalidArguments (unknownPlotKindMsg "not_a_real_kind"))) ∧
    (∃ pre post : String,
      unknownPlotKindMsg "not_a_real_kind" = pre ++ "not_a_real_kind" ++ post) ∧
    ∃ fig, (CalculatorResult.plot resW "drift" false).2 = Except.ok fig := by
  have h1 := (plot_kind_dispatch resW "not_a_real_kind" false).1 (by decide)
  have h2 := (plot_kind_dispatch resW "drift" false).2 rfl
  exact ⟨h1.1, h1.2, h2⟩

/-- C10 counterexample: plotting kind `drift` mutates the result object's
stored table in place — at the fixture, whose row has period `reference`,
the stored table after the plot call differs from the table before it. -/
theorem plot_mutates_result_table_counterexample :
    ¬ (((CalculatorResult.plot resW "drift" false).1).data = resW.data) := by
  decide

/-- C10 (amended): plot with kind `drift` returns a figure but mutates in
place: the period of every row of the result's stored table is overwritten
with `analysis` (row count, order and all other row fields unchanged);
without `plot_reference` the calculator is untouched, while with
`plot_reference` the period of every row of the calculator's stored
reference results is overwritten with `reference`. -/
theorem plot_drift_mutates_period_only (res : CalculatorResult) (plotReference : Bool) :
    (∃ fig, (CalculatorResult.plot res "drift" plotReference).2 = Except.ok fig) ∧
    ((CalculatorResult.plot res "drift" plotReference).1).data.length = res.data.length ∧
    (∀ (i : Nat)
       (h1 : i < ((CalculatorResult.plot res "drift" plotReference).1).data.length)
       (h2 : i < res.data.length),
       ((((CalculatorResult.plot res "drift" plotReference).1).data.get ⟨i, h1⟩).period =
          "analysis") ∧
       ((((CalculatorResult.plot res "drift" plotReference).1).data.get ⟨i, h1⟩).key =
          (res.data.get ⟨i, h2⟩).key) ∧
       ((((CalculatorResult.plot res "drift" plotReference).1).data.get ⟨i, h1⟩).startIndex =
          (res.data.get ⟨i, h2⟩).startIndex) ∧
       ((((CalculatorResult.plot res "drift" plotReference).1).data.get ⟨i, h1⟩).endIndex =
          (res.data.get ⟨i, h2⟩).endIndex) ∧
       ((((CalculatorResult.plot res "drift" plotReference).1).data.get
           ⟨i, h1⟩).reconstructionError = (res.data.get ⟨i, h2⟩).reconstructionError) ∧
       ((((CalculatorResult.plot res "drift" plotReference).1).data.get
           ⟨i, h1⟩).lowerThreshold = (res.data.get ⟨i, h2⟩).lowerThreshold) ∧
       ((((CalculatorResult.plot res "drift" plotReference).1).data.get
           ⟨i, h1⟩).upperThreshold = (res.data.get ⟨i, h2⟩).upperThreshold) ∧
       ((((CalculatorResult.plot res "drift" plotReference).1).data.get ⟨i, h1⟩).alert =
          (res.data.get ⟨i, h2⟩).alert)) ∧
    (plotReference = false →
      ((CalculatorResult.plot res "drift" plotReference).1).calculator = res.calculator) ∧
    (plotReference = true →
      ((CalculatorResult.plot res "drift" plotReference).1).calculator.previousReferenceResults =
        some (setPeriodColumn (res.calculator.previousReferenceResults.getD []) "reference")) := by
  cases plotReference with
  | false =>
    have hdata : ((CalculatorResult.plot res "drift" false).1).data =
        setPeriodColumn res.data "analysis" := rfl
    have hcalc : ((CalculatorResult.plot res "drift" false).1).calculator =
        res.calculator := rfl
    refine ⟨⟨(plotDrift res.data res.calculator false).2.2, rfl⟩, ?_, ?_, ?_, ?_⟩
    · rw [hdata]; simp [setPeriodColumn]
    · intro i h1 h2
      simp [hdata, setPeriodColumn, List.getElem_map]
    · intro _; exact hcalc
    · intro hcontra; exact absurd hcontra (by simp)
  | true =>
    have hdata : ((CalculatorResult.plot res "drift" true).1).data =
        setPeriodColumn res.data "analysis" := rfl
    have hprev :
        ((CalculatorResult.plot res "drift" true).1).calculator.previousReferenceResults =
          some (setPeriodColumn (res.calculator.previousReferenceResults.getD []) "reference") :=
      rfl
    refine ⟨⟨(plotDrift res.data res.calculator true).2.2, rfl⟩, ?_, ?_, ?_, ?_⟩
    · rw [hdata]; simp [setPeriodColumn]
    · intro i h1 h2
      simp [hdata, setPeriodColumn, List.getElem_map]
    · intro hcontra; exact absurd hcontra (by simp)
    · intro _; exact hprev

/-- Witness for the amended C10 at the fixture. -/
theorem plot_drift_mutates_period_only_witness :
    ((CalculatorResult.plot resW "drift" false).1).data.length = resW.data.length ∧
    ((CalculatorResult.plot resW "drift" false).1).calculator = resW.calculator ∧
    ∃ fig, (CalculatorResult.plot resW "drift" true).2 = Except.ok fig := by
  have h := plot_drift_mutates_period_only resW false
  have h' := plot_drift_mutates_period_only resW true
  exact ⟨h.2.1, h.2.2.2.1 rfl, h'.1⟩

end NannyML
